import Mathlib

/-!
Shallow embedding of the newsapi crawler DAG (src/dags/crawler.py).

Firestore collections are modelled as finite maps from document keys to
document contents.  A sources snapshot document is written by
GetNewsSources as a dict keyed by source id, and the diff notifier only
ever looks at its key list, so a snapshot document is modelled by its
list of keys.  Schema snapshot documents are written as a dict with the
single field keys holding a list of field names; they are modelled by
that list.  Pub/sub messages are modelled as a topic name (the key that
is passed to topic_path; topic_path is injective in the key for a fixed
project) together with the JSON value that is serialised and published.
-/

/-! ## Dates and isoformat rendering (datetime.date.isoformat / datetime.isoformat) -/

/-- Decimal digit character for a value reduced mod 10, as produced by
Python's number rendering. -/
def digitChar (n : Nat) : Char := Char.ofNat (48 + n % 10)

/-- Decimal digit characters of a natural number, most significant first.
The first argument is fuel; it is always called with enough fuel. -/
def digitsAux : Nat → Nat → List Char
  | 0, _ => []
  | fuel + 1, n => if n < 10 then [digitChar n] else digitsAux fuel (n / 10) ++ [digitChar (n % 10)]

/-- Decimal rendering of a natural number as a list of digit characters. -/
def natDigits (n : Nat) : List Char := digitsAux (n + 1) n

/-- Left pad with the zero character to the given width, as Python's
zero-padded fixed-width rendering in date/time isoformat does. -/
def zpad (width : Nat) (cs : List Char) : List Char :=
  List.replicate (width - cs.length) '0' ++ cs

/-- Calendar date, the relevant fields of datetime.date. -/
structure Date where
  year : Nat
  month : Nat
  day : Nat

/-- Timestamp, the relevant fields of datetime.datetime (microseconds are
zero for scheduled execution dates and would only add more characters
after the seconds field). -/
structure DateTime where
  date : Date
  hour : Nat
  minute : Nat
  second : Nat

/-- Characters of date.isoformat(): YYYY-MM-DD. -/
def dateIsoChars (d : Date) : List Char :=
  zpad 4 (natDigits d.year) ++ '-' :: zpad 2 (natDigits d.month) ++ '-' :: zpad 2 (natDigits d.day)

/-- Python date.isoformat(). -/
def dateIso (d : Date) : String := String.mk (dateIsoChars d)

/-- Python datetime.isoformat(): the date part, the separator T, then
HH:MM:SS. -/
def datetimeIso (t : DateTime) : String :=
  String.mk (dateIsoChars t.date ++
    'T' :: zpad 2 (natDigits t.hour) ++
    ':' :: zpad 2 (natDigits t.minute) ++
    ':' :: zpad 2 (natDigits t.second))

/-- Document key the snapshotters (GetNewsSources, GetDataSchemas) write
under: execution_date.date().isoformat(). -/
def snapshotWriteKey (executionDate : DateTime) : String := dateIso executionDate.date

/-- Document key the diff notifiers (CheckAndPublishNewsSources,
CheckDataSchemas) read the previous day snapshot under:
prev_execution_date.isoformat(), with prev_execution_date a datetime. -/
def prevReadKey (prevExecutionDate : DateTime) : String := datetimeIso prevExecutionDate

/-! ## JSON payloads and published messages -/

/-- JSON values, as far as the payloads built with json.dumps need. -/
inductive Json where
  | str (s : String) : Json
  | arr (elems : List Json) : Json
  | obj (fields : List (String × Json)) : Json

/-- Payload json.dumps(\x7b'new': list(ids)\x7d). -/
def newPayload (ids : List String) : Json := Json.obj [("new", Json.arr (ids.map Json.str))]

/-- Payload json.dumps(\x7b'remove': list(ids)\x7d). -/
def removePayload (ids : List String) : Json := Json.obj [("remove", Json.arr (ids.map Json.str))]

/-- A message handed to pubsub_client.publish: the topic key and the JSON
value whose UTF-8 serialisation is the message body. -/
structure PubMsg where
  topic : String
  payload : Json

/-- Collection of snapshot documents: document key to document content,
a document being modelled by its list of keys (see the header comment). -/
def SnapStore : Type := String → Option (List String)

/-- Topic key for the sources diff messages (COLLECTION_SOURCES_KEY). -/
def COLLECTION_SOURCES_KEY : String := "sources"

/-- Topic key SOURCES_SCHEMA_SOURCES_KEY. -/
def SOURCES_SCHEMA_SOURCES_KEY : String := "sources-schema"

/-- Topic key ARTICLES_SCHEMA_SOURCES_KEY. -/
def ARTICLES_SCHEMA_SOURCES_KEY : String := "articles-schema"

/-! ## CheckAndPublishNewsSources.execute_ -/

/-- CheckAndPublishNewsSources.execute_ (crawler.py lines 315-344).
Reads the previous day document under prev_execution_date.isoformat()
and the current document under execution_date.date().isoformat().  If
the previous document does not exist it returns having published
nothing (some []).  Otherwise it evaluates list(doc.to_dict()) on the
current document: to_dict() of a document that does not exist is None
and list(None) raises TypeError, modelled as none.  With both documents
present it publishes one message per non-empty set difference, the
remove message first.  Python iterates a set in unspecified order; the
filters below fix one order, and every claim about the payload lists is
stated up to the set of their elements. -/
def checkAndPublishNewsSources (store : SnapStore) (executionDate prevExecutionDate : DateTime) :
    Option (List PubMsg) :=
  match store (prevReadKey prevExecutionDate) with
  | none => some []
  | some prevKeys =>
    match store (snapshotWriteKey executionDate) with
    | none => none
    | some currentKeys =>
      let remove := prevKeys.filter (fun k => decide (¬ k ∈ currentKeys))
      let nw := currentKeys.filter (fun k => decide (¬ k ∈ prevKeys))
      some ((if remove.length = 0 then [] else
              [⟨COLLECTION_SOURCES_KEY, removePayload remove⟩]) ++
            (if nw.length = 0 then [] else
              [⟨COLLECTION_SOURCES_KEY, newPayload nw⟩]))

/-! ## CheckDataSchemas.execute_ -/

/-- Diff-and-publish step shared by the two halves of
CheckDataSchemas.execute_: given the previous and current snapshot
reads, the topic of the two-sided diff messages and the topic of the
bootstrap message, produce the published messages in order. -/
def schemaDiffMsgs (prevDoc curDoc : Option (List String)) (diffTopic bootTopic : String) :
    List PubMsg :=
  match prevDoc, curDoc with
  | some prevKeys, some currentKeys =>
      let remove := prevKeys.filter (fun k => decide (¬ k ∈ currentKeys))
      let nw := currentKeys.filter (fun k => decide (¬ k ∈ prevKeys))
      (if remove.length = 0 then [] else [⟨diffTopic, removePayload remove⟩]) ++
      (if nw.length = 0 then [] else [⟨diffTopic, newPayload nw⟩])
  | none, some currentKeys => [⟨bootTopic, newPayload currentKeys⟩]
  | _, none => []

/-- CheckDataSchemas.execute_ (crawler.py lines 404-461).  The sources
schema half diffs under the sources-schema topic but publishes its
bootstrap message (previous document absent, current present) to the
articles-schema topic, exactly as lines 438-442 do; the articles schema
half uses the articles-schema topic throughout.  Messages are listed in
publish order: sources schema half first. -/
def checkDataSchemas (sourcesSchemaStore articleSchemaStore : SnapStore)
    (executionDate prevExecutionDate : DateTime) : List PubMsg :=
  let execKey := snapshotWriteKey executionDate
  let prevKey := prevReadKey prevExecutionDate
  schemaDiffMsgs (sourcesSchemaStore prevKey) (sourcesSchemaStore execKey)
    SOURCES_SCHEMA_SOURCES_KEY ARTICLES_SCHEMA_SOURCES_KEY ++
  schemaDiffMsgs (articleSchemaStore prevKey) (articleSchemaStore execKey)
    ARTICLES_SCHEMA_SOURCES_KEY ARTICLES_SCHEMA_SOURCES_KEY

/-! ## ClearOldSourceData.execute_ and ClearOldSchemas.execute_

Retention works at day granularity: every key involved is the isoformat
of a calendar date obtained by repeatedly subtracting timedelta(days=1),
so a collection of dated snapshots is modelled as the finite set of day
numbers (as integers) whose document exists. -/

/-- While loop shared by ClearOldSourceData and ClearOldSchemas: while
the document at day d exists, delete it and step one day back. -/
def prune (s : Finset ℤ) (d : ℤ) : Finset ℤ :=
  if h : d ∈ s then prune (s.erase d) (d - 1) else s
termination_by s.card
decreasing_by exact Finset.card_erase_lt_of_mem h

/-- Previous execution date computed by _BaseOperator.execute:
execution_date - timedelta(days=1). -/
def prevDayNum (executionDay : ℤ) : ℤ := executionDay - 1

/-- ClearOldSourceData.execute_ (crawler.py lines 297-309): delete the
snapshots starting from prev_execution_date.date() - timedelta(days=1),
walking one day back while a document exists. -/
def clearOldSourceData (store : Finset ℤ) (executionDay : ℤ) : Finset ℤ :=
  prune store (prevDayNum executionDay - 1)

/-- ClearOldSchemas.execute_ (crawler.py lines 382-401): the same walk,
run first over the sources schema collection and then over the article
schema collection. -/
def clearOldSchemas (sourcesSchemas articleSchemas : Finset ℤ) (executionDay : ℤ) :
    Finset ℤ × Finset ℤ :=
  (prune sourcesSchemas (prevDayNum executionDay - 1),
   prune articleSchemas (prevDayNum executionDay - 1))

/-! ## CheckAndCreateBigQueryTable.execute_ -/

/-- Declared field in BIGQUERY_TABLE_SCHEMA: a type string and the
optional nested fields dict, modelled as an association list (the empty
list standing for an absent or empty fields entry, which the loop in
_get_field_schema treats identically). -/
inductive FieldSpec where
  | mk (fieldType : String) (fields : List (String × FieldSpec)) : FieldSpec

/-- Declared type string of a field spec. -/
def FieldSpec.fieldType : FieldSpec → String
  | .mk t _ => t

/-- Declared nested fields of a field spec. -/
def FieldSpec.fields : FieldSpec → List (String × FieldSpec)
  | .mk _ f => f

/-- bigquery.SchemaField as the provisioner uses it: name, field type
and nested fields. -/
inductive SchemaField where
  | mk (name : String) (fieldType : String) (fields : List SchemaField) : SchemaField

/-- Name of a schema field. -/
def SchemaField.name : SchemaField → String
  | .mk n _ _ => n

mutual
/-- Inner helper _get_field_schema of CheckAndCreateBigQueryTable
(crawler.py lines 236-241): build a SchemaField from a declared field
name and spec, recursing into the nested fields. -/
def getFieldSchema (name : String) : FieldSpec → SchemaField
  | .mk t fs => .mk name t (getFieldSchemaList fs)

/-- Nested-field recursion of _get_field_schema over the fields dict. -/
def getFieldSchemaList : List (String × FieldSpec) → List SchemaField
  | [] => []
  | (n, spec) :: rest => getFieldSchema n spec :: getFieldSchemaList rest
end

/-- Schema computation of CheckAndCreateBigQueryTable.execute_
(crawler.py lines 229-247): start from the table's current schema,
collect the current field names once, and append a SchemaField for each
declared field whose name is not among them. -/
def computeNewSchema (currentSchema : List SchemaField)
    (declared : List (String × FieldSpec)) : List SchemaField :=
  let currentNames := currentSchema.map SchemaField.name
  declared.foldl
    (fun acc p => if p.1 ∈ currentNames then acc else acc ++ [getFieldSchema p.1 p.2])
    currentSchema

/-! ## GetNewsSources.execute_ and GetDataSchemas.execute_ -/

/-- Write of a snapshot document: document(key).set(value), replacing
whatever was stored under that key. -/
def setDoc (store : SnapStore) (key : String) (value : List String) : SnapStore :=
  fun k => if k = key then some value else store k

/-- GetNewsSources.execute_ (crawler.py lines 347-368): store the ids of
the fetched sources under execution_date.date().isoformat(); when a
document for that date already exists, log a warning first, then
overwrite it.  Returns the new store and the warnings raised. -/
def getNewsSources (store : SnapStore) (fetchedSourceIds : List String)
    (executionDate : DateTime) : SnapStore × List String :=
  let key := snapshotWriteKey executionDate
  let warnings :=
    if (store key).isSome then ["overriding sources for date " ++ key] else []
  (setDoc store key fetchedSourceIds, warnings)

/-- GetDataSchemas.execute_ (crawler.py lines 464-486): store the field
names of one sampled source and one sampled headline under
execution_date.date().isoformat() in the two schema collections.  The
code performs no existence check and raises no warning before the
writes.  Returns both new stores and the warnings raised (none). -/
def getDataSchemas (sourcesSchemaStore articleSchemaStore : SnapStore)
    (sourceKeys headlineKeys : List String) (executionDate : DateTime) :
    SnapStore × SnapStore × List String :=
  let key := snapshotWriteKey executionDate
  (setDoc sourcesSchemaStore key sourceKeys,
   setDoc articleSchemaStore key headlineKeys,
   [])

/-! ## GetData.execute_ article identity and write

The article id is hashlib.md5(bytes(article['url'], 'utf8')).hexdigest().
Machine words are naturals reduced mod 2^32 explicitly. -/

/-- UTF-8 encoding of one character, as bytes(s, 'utf8') produces. -/
def utf8EncodeChar (c : Char) : List Nat :=
  let n := c.toNat
  if n < 128 then [n]
  else if n < 2048 then [192 + n / 64, 128 + n % 64]
  else if n < 65536 then [224 + n / 4096, 128 + n / 64 % 64, 128 + n % 64]
  else [240 + n / 262144, 128 + n / 4096 % 64, 128 + n / 64 % 64, 128 + n % 64]

/-- UTF-8 encoding of a string as a list of byte values. -/
def utf8Bytes (s : String) : List Nat := (s.data.map utf8EncodeChar).flatten

/-- Addition of 32-bit words. -/
def add32 (a b : Nat) : Nat := (a + b) % 4294967296

/-- Bitwise complement of a 32-bit word. -/
def not32 (a : Nat) : Nat := 4294967295 - a % 4294967296

/-- Left rotation of a 32-bit word by s bits. -/
def rotl32 (x s : Nat) : Nat :=
  Nat.lor ((x <<< s) % 4294967296) ((x % 4294967296) >>> (32 - s))

/-- MD5 round constants, floor(2^32 * abs(sin(i + 1))) for i below 64. -/
def md5K : List Nat :=
  [3614090360, 3905402710, 606105819, 3250441966, 4118548399, 1200080426, 2821735955, 4249261313,
   1770035416, 2336552879, 4294925233, 2304563134, 1804603682, 4254626195, 2792965006, 1236535329,
   4129170786, 3225465664, 643717713, 3921069994, 3593408605, 38016083, 3634488961, 3889429448,
   568446438, 3275163606, 4107603335, 1163531501, 2850285829, 4243563512, 1735328473, 2368359562,
   4294588738, 2272392833, 1839030562, 4259657740, 2763975236, 1272893353, 4139469664, 3200236656,
   681279174, 3936430074, 3572445317, 76029189, 3654602809, 3873151461, 530742520, 3299628645,
   4096336452, 1126891415, 2878612391, 4237533241, 1700485571, 2399980690, 4293915773, 2240044497,
   1873313359, 4264355552, 2734768916, 1309151649, 4149444226, 3174756917, 718787259, 3951481745]

/-- MD5 per-round left-rotation amounts. -/
def md5S : List Nat :=
  [7, 12, 17, 22, 7, 12, 17, 22, 7, 12, 17, 22, 7, 12, 17, 22,
   5, 9, 14, 20, 5, 9, 14, 20, 5, 9, 14, 20, 5, 9, 14, 20,
   4, 11, 16, 23, 4, 11, 16, 23, 4, 11, 16, 23, 4, 11, 16, 23,
   6, 10, 15, 21, 6, 10, 15, 21, 6, 10, 15, 21, 6, 10, 15, 21]

/-- Little-endian bytes of a value, lowest byte first, fixed width. -/
def leBytes : Nat → Nat → List Nat
  | 0, _ => []
  | w + 1, n => n % 256 :: leBytes w (n / 256)

/-- MD5 padding: the 128 byte, zeros to 56 mod 64, then the bit length
of the message as eight little-endian bytes. -/
def md5Pad (msg : List Nat) : List Nat :=
  msg ++ 128 :: List.replicate ((119 - msg.length % 64) % 64) 0 ++
    leBytes 8 (msg.length * 8 % 18446744073709551616)

/-- Split a byte list into 64-byte blocks. -/
def chunks64 (l : List Nat) : List (List Nat) :=
  if h : l = [] then [] else l.take 64 :: chunks64 (l.drop 64)
termination_by l.length
decreasing_by
  simp only [List.length_drop]
  have : 0 < l.length := List.length_pos.mpr h
  omega

/-- Four little-endian 32-bit words from each group of four bytes. -/
def leWords : List Nat → List Nat
  | b0 :: b1 :: b2 :: b3 :: rest => (b0 + b1 * 256 + b2 * 65536 + b3 * 16777216) :: leWords rest
  | _ => []

/-- Nonlinear function and message index of MD5 round i on b, c, d. -/
def md5Round (i b c d : Nat) : Nat × Nat :=
  if i < 16 then (Nat.lor (Nat.land b c) (Nat.land (not32 b) d), i)
  else if i < 32 then (Nat.lor (Nat.land d b) (Nat.land (not32 d) c), (5 * i + 1) % 16)
  else if i < 48 then (Nat.xor b (Nat.xor c d), (3 * i + 5) % 16)
  else (Nat.xor c (Nat.lor b (not32 d)), 7 * i % 16)

/-- One MD5 block step over the running state. -/
def md5Block (state : Nat × Nat × Nat × Nat) (m : List Nat) : Nat × Nat × Nat × Nat :=
  let ⟨a0, b0, c0, d0⟩ := state
  let ⟨a, b, c, d⟩ := (List.range 64).foldl
    (fun (st : Nat × Nat × Nat × Nat) i =>
      let ⟨a, b, c, d⟩ := st
      let ⟨f, g⟩ := md5Round i b c d
      let f2 := add32 (add32 (add32 f a) (md5K.getD i 0)) (m.getD g 0)
      (d, add32 b (rotl32 f2 (md5S.getD i 0)), b, c))
    (a0, b0, c0, d0)
  (add32 a0 a, add32 b0 b, add32 c0 c, add32 d0 d)

/-- Hexadecimal digit character. -/
def hexChar (n : Nat) : Char :=
  if n < 10 then Char.ofNat (48 + n) else Char.ofNat (87 + n % 16)

/-- Lowercase hexadecimal rendering of a byte. -/
def byteHexChars (b : Nat) : List Char := [hexChar (b / 16 % 16), hexChar (b % 16)]

/-- hashlib.md5(data).hexdigest() over a byte list. -/
def md5Hex (msg : List Nat) : String :=
  let ⟨a, b, c, d⟩ := (chunks64 (md5Pad msg)).foldl
    (fun state block => md5Block state (leWords block))
    (1732584193, 4023233417, 2562383102, 271733878)
  String.mk ((((leBytes 4 a ++ leBytes 4 b ++ leBytes 4 c ++ leBytes 4 d).map byteHexChars).flatten))

/-- Article id computed at crawler.py line 283:
hashlib.md5(bytes(article['url'], 'utf8')).hexdigest(). -/
def articleId (url : String) : String := md5Hex (utf8Bytes url)

/-- Article as fetched from the API, before the crawler adds its own
fields; only the url takes part in any claim, the remaining payload is
carried opaquely. -/
structure FetchedArticle where
  url : String
  payloadFields : List (String × Json)

/-- Article document as written by GetData.execute_: the fetched fields
plus id, keyword and date (crawler.py lines 282-289). -/
structure StoredArticle where
  url : String
  payloadFields : List (String × Json)
  id : String
  keyword : String
  date : String

/-- Document written for one fetched article under one keyword. -/
def storedArticle (a : FetchedArticle) (keyword dateKey : String) : StoredArticle :=
  { url := a.url, payloadFields := a.payloadFields,
    id := articleId a.url, keyword := keyword, date := dateKey }

/-- Articles collection: (date key, keyword, document id) to document. -/
def ArticlesStore : Type := String → String → String → Option StoredArticle

/-- Write of GetData.execute_ line 289:
articles_date_ref.collection(keyword).document(hash).set(article),
replacing any document already stored under that (date, keyword, id). -/
def writeArticle (store : ArticlesStore) (dateKey keyword : String) (a : FetchedArticle) :
    ArticlesStore :=
  fun dk kw docId =>
    if dk = dateKey ∧ kw = keyword ∧ docId = articleId a.url
    then some (storedArticle a keyword dateKey)
    else store dk kw docId

/-! ## Concrete fixtures used by witnesses and counterexamples -/

/-- Execution date 2024-01-02T00:00:00. -/
def execDate0 : DateTime := ⟨⟨2024, 1, 2⟩, 0, 0, 0⟩

/-- Previous execution date 2024-01-01T00:00:00, one day before
execDate0 as _BaseOperator.execute computes it. -/
def prevDate0 : DateTime := ⟨⟨2024, 1, 1⟩, 0, 0, 0⟩

/-- Sources collection holding the spec's example snapshots, with the
previous day document stored under the key the notifier reads. -/
def sourcesStoreEx : SnapStore := fun k =>
  if k = "2024-01-01T00:00:00" then some ["bbc", "cnn"]
  else if k = "2024-01-02" then some ["cnn", "reuters"] else none

/-- Sources collection where both documents exist and are empty. -/
def sourcesStoreEmpty : SnapStore := fun k =>
  if k = "2024-01-01T00:00:00" then some []
  else if k = "2024-01-02" then some [] else none

/-- Sources collection where only the previous day document exists. -/
def sourcesStoreOnlyPrev : SnapStore := fun k =>
  if k = "2024-01-01T00:00:00" then some ["x"] else none

/-- Schema collection where only the current day document exists. -/
def schemaStoreToday : SnapStore := fun k =>
  if k = "2024-01-02" then some ["f1", "f2"] else none

/-! ## Character facts about isoformat keys -/

/-- Digit characters never equal the uppercase letter T. -/
theorem digitChar_ne_T (n : Nat) : digitChar n ≠ 'T' := by
  have h : ∀ m, m < 10 → Char.ofNat (48 + m) ≠ 'T' := by decide
  exact h (n % 10) (Nat.mod_lt n (by norm_num))

/-- Every character produced by digitsAux is a digit character. -/
theorem digitsAux_chars :
    ∀ fuel n : Nat, ∀ c ∈ digitsAux fuel n, ∃ m, c = digitChar m := by
  intro fuel
  induction fuel with
  | zero => intro n c hc; simp [digitsAux] at hc
  | succ f ih =>
    intro n c hc
    by_cases h : n < 10
    · simp [digitsAux, h] at hc
      exact ⟨n, hc⟩
    · simp [digitsAux, h] at hc
      rcases hc with hc | hc
      · exact ih _ c hc
      · exact ⟨n % 10, hc⟩

/-- A zero-padded decimal rendering contains no uppercase letter T. -/
theorem zpad_natDigits_ne_T (w n : Nat) : ∀ c ∈ zpad w (natDigits n), c ≠ 'T' := by
  intro c hc
  simp [zpad, List.mem_append, List.mem_replicate] at hc
  rcases hc with hc | hc
  · rw [hc.2]; decide
  · obtain ⟨m, rfl⟩ := digitsAux_chars _ _ c hc
    exact digitChar_ne_T m

/-- The date part of an isoformat key contains no uppercase letter T. -/
theorem dateIsoChars_ne_T (d : Date) : ∀ c ∈ dateIsoChars d, c ≠ 'T' := by
  intro c hc
  unfold dateIsoChars at hc
  rcases List.mem_append.mp hc with h1 | h1
  · rcases List.mem_append.mp h1 with h2 | h2
    · exact zpad_natDigits_ne_T _ _ c h2
    · rcases List.mem_cons.mp h2 with rfl | h3
      · decide
      · exact zpad_natDigits_ne_T _ _ c h3
  · rcases List.mem_cons.mp h1 with rfl | h2
    · decide
    · exact zpad_natDigits_ne_T _ _ c h2

/-- C3: the diff notifiers read the previous day snapshot under
prev_execution_date.isoformat(), a full datetime string with a time
component, while every snapshotter writes under
execution_date.date().isoformat(), a date-only string; the two key
formats are never equal, for any pair of timestamps, so the
previous-day read uses a key no snapshotter ever writes. -/
theorem prev_read_key_never_written (prevExecutionDate writeDate : DateTime) :
    prevReadKey prevExecutionDate ≠ snapshotWriteKey writeDate := by
  intro h
  have hT : 'T' ∈ (prevReadKey prevExecutionDate).data := by
    simp [prevReadKey, datetimeIso]
  rw [h] at hT
  have hT2 : 'T' ∈ dateIsoChars writeDate.date := by
    simpa [snapshotWriteKey, dateIso] using hT
  exact dateIsoChars_ne_T _ 'T' hT2 rfl

/-- Witness for C3: even for the very same day, the key read for the
previous day differs from the key written by the snapshotters. -/
theorem prev_read_key_never_written_witness :
    prevReadKey prevDate0 ≠ snapshotWriteKey prevDate0 :=
  prev_read_key_never_written prevDate0 prevDate0

/-! ## C1 and C2: the sources diff notifier -/

/-- Filtering a key list by non-membership computes the set difference
of the corresponding key sets. -/
theorem toFinset_filter_not_mem (l₁ l₂ : List String) :
    (l₁.filter (fun k => decide (¬ k ∈ l₂))).toFinset = l₁.toFinset \ l₂.toFinset := by
  ext x
  simp [List.mem_filter]

/-- C1 (amended): when both documents the sources diff notifier reads
exist, it publishes, in order, one remove message when yesterday's keys
minus today's keys is non-empty and one new message when today's keys
minus yesterday's keys is non-empty, each carrying exactly that set
difference; for identical key sets nothing is published, and for
disjoint and both non-empty key sets exactly two messages are
published.  (The original claim asserted exactly two messages for all
disjoint key sets; that fails when either snapshot is empty.) -/
theorem sources_diff_notifier_contract
    (store : SnapStore) (executionDate prevExecutionDate : DateTime)
    (pk ck : List String)
    (hp : store (prevReadKey prevExecutionDate) = some pk)
    (hc : store (snapshotWriteKey executionDate) = some ck) :
    ∃ msgs rl nl,
      checkAndPublishNewsSources store executionDate prevExecutionDate = some msgs ∧
      rl.toFinset = pk.toFinset \ ck.toFinset ∧
      nl.toFinset = ck.toFinset \ pk.toFinset ∧
      msgs = (if rl = [] then [] else [⟨COLLECTION_SOURCES_KEY, removePayload rl⟩]) ++
             (if nl = [] then [] else [⟨COLLECTION_SOURCES_KEY, newPayload nl⟩]) ∧
      (pk.toFinset = ck.toFinset → msgs = []) ∧
      (Disjoint pk.toFinset ck.toFinset → pk ≠ [] → ck ≠ [] → msgs.length = 2) := by
  have hrl := toFinset_filter_not_mem pk ck
  have hnl := toFinset_filter_not_mem ck pk
  refine ⟨_, pk.filter (fun k => decide (¬ k ∈ ck)), ck.filter (fun k => decide (¬ k ∈ pk)),
    ?_, hrl, hnl, rfl, ?_, ?_⟩
  · simp only [checkAndPublishNewsSources, hp, hc]
    congr 1
    congr 1 <;> simp [List.length_eq_zero]
  · intro heq
    have hsub1 : ∀ x ∈ pk, x ∈ ck := fun x hx =>
      List.mem_toFinset.mp (heq ▸ List.mem_toFinset.mpr hx)
    have hsub2 : ∀ x ∈ ck, x ∈ pk := fun x hx =>
      List.mem_toFinset.mp (heq.symm ▸ List.mem_toFinset.mpr hx)
    simp
    exact ⟨hsub1, hsub2⟩
  · intro hdisj hpk hck
    have hne1 : ¬ ∀ a ∈ pk, a ∈ ck := by
      obtain ⟨a, ha⟩ := List.exists_mem_of_ne_nil pk hpk
      intro hall
      exact Finset.disjoint_left.mp hdisj (List.mem_toFinset.mpr ha)
        (List.mem_toFinset.mpr (hall a ha))
    have hne2 : ¬ ∀ a ∈ ck, a ∈ pk := by
      obtain ⟨a, ha⟩ := List.exists_mem_of_ne_nil ck hck
      intro hall
      exact Finset.disjoint_right.mp hdisj (List.mem_toFinset.mpr ha)
        (List.mem_toFinset.mpr (hall a ha))
    simp [hne1, hne2]

/-- Witness for C1: on the spec's own example, yesterday bbc and cnn,
today cnn and reuters, both documents present. -/
theorem sources_diff_notifier_contract_witness :
    ∃ msgs rl nl,
      checkAndPublishNewsSources sourcesStoreEx execDate0 prevDate0 = some msgs ∧
      rl.toFinset = ["bbc", "cnn"].toFinset \ ["cnn", "reuters"].toFinset ∧
      nl.toFinset = ["cnn", "reuters"].toFinset \ ["bbc", "cnn"].toFinset ∧
      msgs = (if rl = [] then [] else [⟨COLLECTION_SOURCES_KEY, removePayload rl⟩]) ++
             (if nl = [] then [] else [⟨COLLECTION_SOURCES_KEY, newPayload nl⟩]) ∧
      (["bbc", "cnn"].toFinset = ["cnn", "reuters"].toFinset → msgs = []) ∧
      (Disjoint ["bbc", "cnn"].toFinset ["cnn", "reuters"].toFinset →
        ["bbc", "cnn"] ≠ ([] : List String) → ["cnn", "reuters"] ≠ ([] : List String) →
        msgs.length = 2) :=
  sources_diff_notifier_contract sourcesStoreEx execDate0 prevDate0
    ["bbc", "cnn"] ["cnn", "reuters"] rfl rfl

/-- Counterexample to C1 as frozen: both snapshot documents exist and
their key sets are disjoint (both empty), yet zero messages are
published instead of the claimed two. -/
theorem sources_diff_disjoint_counterexample :
    (∃ pk ck,
      sourcesStoreEmpty (prevReadKey prevDate0) = some pk ∧
      sourcesStoreEmpty (snapshotWriteKey execDate0) = some ck ∧
      Disjoint pk.toFinset ck.toFinset) ∧
    checkAndPublishNewsSources sourcesStoreEmpty execDate0 prevDate0 = some [] :=
  ⟨⟨[], [], rfl, rfl, by simp⟩, rfl⟩

/-- C2 (amended): when the previous day document is absent the sources
diff notifier silently returns, publishing nothing; but when the
previous day document exists and today's document is absent,
execute_ evaluates list(to_dict()) on a missing document, which is
list(None) and raises TypeError (modelled as none), so the run fails
rather than being skipped; still nothing is published. -/
theorem sources_diff_today_missing_raises
    (store : SnapStore) (executionDate prevExecutionDate : DateTime) (pk : List String)
    (hp : store (prevReadKey prevExecutionDate) = some pk)
    (hc : store (snapshotWriteKey executionDate) = none) :
    checkAndPublishNewsSources store executionDate prevExecutionDate = none ∧
    ∀ coldStore : SnapStore, coldStore (prevReadKey prevExecutionDate) = none →
      checkAndPublishNewsSources coldStore executionDate prevExecutionDate = some [] := by
  constructor
  · simp only [checkAndPublishNewsSources, hp, hc]
  · intro s hs
    simp only [checkAndPublishNewsSources, hs]

/-- Witness for C2: a store holding only the previous day document
makes the run raise rather than return. -/
theorem sources_diff_today_missing_raises_witness :
    checkAndPublishNewsSources sourcesStoreOnlyPrev execDate0 prevDate0 = none :=
  (sources_diff_today_missing_raises sourcesStoreOnlyPrev execDate0 prevDate0
    ["x"] rfl rfl).1

/-- Counterexample to C2 as frozen: yesterday's document exists, today's
does not, and the operation does not return successfully without
publishing (some []); it raises (none). -/
theorem sources_diff_today_missing_counterexample :
    (sourcesStoreOnlyPrev (prevReadKey prevDate0)).isSome = true ∧
    sourcesStoreOnlyPrev (snapshotWriteKey execDate0) = none ∧
    checkAndPublishNewsSources sourcesStoreOnlyPrev execDate0 prevDate0 ≠ some [] ∧
    checkAndPublishNewsSources sourcesStoreOnlyPrev execDate0 prevDate0 = none := by
  refine ⟨rfl, rfl, fun hcontra => ?_, rfl⟩
  rw [show checkAndPublishNewsSources sourcesStoreOnlyPrev execDate0 prevDate0 = none
    from rfl] at hcontra
  exact Option.noConfusion hcontra

/-! ## C4, C5, C9: the schema diff notifier and the wire format -/

/-- Payload shape required of every published message: a JSON object
with exactly one key, new or remove, holding a list of strings. -/
def oneKeyPayload (j : Json) : Prop :=
  ∃ (key : String) (ids : List String), (key = "new" ∨ key = "remove") ∧
    j = Json.obj [(key, Json.arr (ids.map Json.str))]

/-- Every message produced by a diff-and-publish half carries one of the
two topics it is given. -/
theorem schemaDiffMsgs_topic (prevDoc curDoc : Option (List String)) (dt bt : String) :
    ∀ m ∈ schemaDiffMsgs prevDoc curDoc dt bt, m.topic = dt ∨ m.topic = bt := by
  intro m hm
  match prevDoc, curDoc with
  | some pks, some cks =>
    simp only [schemaDiffMsgs] at hm
    rcases List.mem_append.mp hm with h | h
    · split at h
      · simp at h
      · rw [List.mem_singleton.mp h]
        exact Or.inl rfl
    · split at h
      · simp at h
      · rw [List.mem_singleton.mp h]
        exact Or.inl rfl
  | none, some cks =>
    simp only [schemaDiffMsgs, List.mem_singleton] at hm
    rw [hm]
    exact Or.inr rfl
  | _, none =>
    simp [schemaDiffMsgs] at hm

/-- Every message produced by a diff-and-publish half has a payload with
exactly one key, new or remove, over a list of strings. -/
theorem schemaDiffMsgs_payload (prevDoc curDoc : Option (List String)) (dt bt : String) :
    ∀ m ∈ schemaDiffMsgs prevDoc curDoc dt bt, oneKeyPayload m.payload := by
  intro m hm
  match prevDoc, curDoc with
  | some pks, some cks =>
    simp only [schemaDiffMsgs] at hm
    rcases List.mem_append.mp hm with h | h
    · split at h
      · simp at h
      · rw [List.mem_singleton.mp h]
        exact ⟨"remove", _, Or.inr rfl, rfl⟩
    · split at h
      · simp at h
      · rw [List.mem_singleton.mp h]
        exact ⟨"new", _, Or.inl rfl, rfl⟩
  | none, some cks =>
    rw [List.mem_singleton.mp hm]
    exact ⟨"new", _, Or.inl rfl, rfl⟩
  | _, none =>
    simp [schemaDiffMsgs] at hm

/-- Snapshot collection with no documents at all. -/
def emptySnapStore : SnapStore := fun _ => none

/-- Case analysis of the sources diff notifier: silent return, raised
TypeError, or the same diff-and-publish step the schema halves use,
under the sources topic. -/
theorem checkAndPublishNewsSources_cases
    (store : SnapStore) (ed prev : DateTime) :
    checkAndPublishNewsSources store ed prev = some [] ∨
    checkAndPublishNewsSources store ed prev = none ∨
    ∃ pk ck, store (prevReadKey prev) = some pk ∧ store (snapshotWriteKey ed) = some ck ∧
      checkAndPublishNewsSources store ed prev =
        some (schemaDiffMsgs (some pk) (some ck)
          COLLECTION_SOURCES_KEY COLLECTION_SOURCES_KEY) := by
  cases h1 : store (prevReadKey prev) with
  | none => exact Or.inl (by simp [checkAndPublishNewsSources, h1])
  | some pk =>
    cases h2 : store (snapshotWriteKey ed) with
    | none => exact Or.inr (Or.inl (by simp [checkAndPublishNewsSources, h1, h2]))
    | some ck =>
      exact Or.inr (Or.inr ⟨pk, ck, rfl, rfl,
        by simp [checkAndPublishNewsSources, h1, h2, schemaDiffMsgs]⟩)

/-- C9: every message either notifier hands to publish is a JSON object
with exactly one key, new or remove, whose value is a list of string
identifiers; no message carries both keys or any other key.  These two
operators contain the only publish calls in the program. -/
theorem published_messages_wire_format
    (srcStore s a : SnapStore) (executionDate prevExecutionDate : DateTime) :
    (∀ msgs, checkAndPublishNewsSources srcStore executionDate prevExecutionDate = some msgs →
      ∀ m ∈ msgs, oneKeyPayload m.payload) ∧
    (∀ m ∈ checkDataSchemas s a executionDate prevExecutionDate, oneKeyPayload m.payload) := by
  constructor
  · intro msgs hmsgs m hm
    rcases checkAndPublishNewsSources_cases srcStore executionDate prevExecutionDate with
      h | h | ⟨pk, ck, h1, h2, h⟩
    · rw [h] at hmsgs
      obtain rfl := (Option.some.injEq _ _).mp hmsgs
      exact absurd hm (List.not_mem_nil m)
    · rw [h] at hmsgs
      exact Option.noConfusion hmsgs
    · rw [h] at hmsgs
      obtain rfl := (Option.some.injEq _ _).mp hmsgs
      exact schemaDiffMsgs_payload _ _ _ _ m hm
  · intro m hm
    rcases List.mem_append.mp hm with h | h
    · exact schemaDiffMsgs_payload _ _ _ _ m h
    · exact schemaDiffMsgs_payload _ _ _ _ m h

/-- Witness for C9: a concrete published message, the remove message for
bbc produced on the spec's example stores. -/
theorem published_messages_wire_format_witness :
    oneKeyPayload (removePayload ["bbc"]) :=
  (published_messages_wire_format sourcesStoreEx emptySnapStore emptySnapStore
      execDate0 prevDate0).1
    [⟨COLLECTION_SOURCES_KEY, removePayload ["bbc"]⟩,
     ⟨COLLECTION_SOURCES_KEY, newPayload ["reuters"]⟩]
    rfl _ (List.mem_cons_self _ _)

/-- C4: when yesterday's schema snapshot is absent but today's exists,
the schema notifier publishes a new message listing all of today's keys
(the bootstrap path), for the sources schema half and for the article
schema half alike, whereas the sources variant publishes nothing at all
when yesterday's snapshot is absent. -/
theorem schema_bootstrap_publishes_new
    (s a srcStore : SnapStore) (ed prev : DateTime) (ks hs : List String) :
    (s (prevReadKey prev) = none → s (snapshotWriteKey ed) = some ks →
      ∃ tail, checkDataSchemas s a ed prev =
        ⟨ARTICLES_SCHEMA_SOURCES_KEY, newPayload ks⟩ :: tail) ∧
    (a (prevReadKey prev) = none → a (snapshotWriteKey ed) = some hs →
      ∃ front, checkDataSchemas s a ed prev =
        front ++ [⟨ARTICLES_SCHEMA_SOURCES_KEY, newPayload hs⟩]) ∧
    (srcStore (prevReadKey prev) = none →
      checkAndPublishNewsSources srcStore ed prev = some []) := by
  refine ⟨?_, ?_, ?_⟩
  · intro h1 h2
    refine ⟨schemaDiffMsgs (a (prevReadKey prev)) (a (snapshotWriteKey ed))
      ARTICLES_SCHEMA_SOURCES_KEY ARTICLES_SCHEMA_SOURCES_KEY, ?_⟩
    simp [checkDataSchemas, h1, h2, schemaDiffMsgs]
  · intro h1 h2
    refine ⟨schemaDiffMsgs (s (prevReadKey prev)) (s (snapshotWriteKey ed))
      SOURCES_SCHEMA_SOURCES_KEY ARTICLES_SCHEMA_SOURCES_KEY, ?_⟩
    simp [checkDataSchemas, h1, h2, schemaDiffMsgs]
  · intro h1
    simp [checkAndPublishNewsSources, h1]

/-- Witness for C4: with only today's schema documents present, the
bootstrap new message heads the published list. -/
theorem schema_bootstrap_publishes_new_witness :
    ∃ tail, checkDataSchemas schemaStoreToday schemaStoreToday execDate0 prevDate0 =
      ⟨ARTICLES_SCHEMA_SOURCES_KEY, newPayload ["f1", "f2"]⟩ :: tail :=
  (schema_bootstrap_publishes_new schemaStoreToday schemaStoreToday emptySnapStore
    execDate0 prevDate0 ["f1", "f2"] ["f1", "f2"]).1 rfl rfl

/-- C5: the bootstrap message of the sources schema half goes to the
articles-schema topic, not to the sources-schema topic; a message only
ever carries the sources-schema topic when both sources schema
documents exist. -/
theorem sources_schema_topic_usage
    (s a : SnapStore) (ed prev : DateTime) :
    (∀ ks, s (prevReadKey prev) = none → s (snapshotWriteKey ed) = some ks →
      ARTICLES_SCHEMA_SOURCES_KEY ≠ SOURCES_SCHEMA_SOURCES_KEY ∧
      ∃ tail, checkDataSchemas s a ed prev =
        ⟨ARTICLES_SCHEMA_SOURCES_KEY, newPayload ks⟩ :: tail) ∧
    (∀ m ∈ checkDataSchemas s a ed prev, m.topic = SOURCES_SCHEMA_SOURCES_KEY →
      ∃ pks cks, s (prevReadKey prev) = some pks ∧ s (snapshotWriteKey ed) = some cks) := by
  constructor
  · intro ks h1 h2
    refine ⟨by decide, ?_⟩
    refine ⟨schemaDiffMsgs (a (prevReadKey prev)) (a (snapshotWriteKey ed))
      ARTICLES_SCHEMA_SOURCES_KEY ARTICLES_SCHEMA_SOURCES_KEY, ?_⟩
    simp [checkDataSchemas, h1, h2, schemaDiffMsgs]
  · intro m hm htopic
    rcases List.mem_append.mp hm with h | h
    · cases h1 : s (prevReadKey prev) with
      | some pks =>
        cases h2 : s (snapshotWriteKey ed) with
        | some cks => exact ⟨pks, cks, rfl, rfl⟩
        | none =>
          rw [h1, h2] at h
          simp [schemaDiffMsgs] at h
      | none =>
        cases h2 : s (snapshotWriteKey ed) with
        | some cks =>
          rw [h1, h2] at h
          have hmt : m.topic = ARTICLES_SCHEMA_SOURCES_KEY := by
            rw [List.mem_singleton.mp h]
          rw [hmt] at htopic
          exact absurd htopic (by decide)
        | none =>
          rw [h1, h2] at h
          simp [schemaDiffMsgs] at h
    · rcases schemaDiffMsgs_topic _ _ _ _ m h with ht | ht <;>
        rw [ht] at htopic <;> exact absurd htopic (by decide)

/-- Witness for C5: with only today's sources schema document present,
the bootstrap message is published and its topic is articles-schema. -/
theorem sources_schema_topic_usage_witness :
    ARTICLES_SCHEMA_SOURCES_KEY ≠ SOURCES_SCHEMA_SOURCES_KEY ∧
    ∃ tail, checkDataSchemas schemaStoreToday emptySnapStore execDate0 prevDate0 =
      ⟨ARTICLES_SCHEMA_SOURCES_KEY, newPayload ["f1", "f2"]⟩ :: tail :=
  (sources_schema_topic_usage schemaStoreToday emptySnapStore execDate0 prevDate0).1
    ["f1", "f2"] rfl rfl

/-! ## C6: retention pruning -/

/-- Membership after the backward-walking delete loop: a day survives
unless it is at most the starting day and every day from it up to the
starting day is present in the store (the loop reaches it without
hitting a missing day first). -/
theorem mem_prune (x : ℤ) :
    ∀ (s : Finset ℤ) (d : ℤ),
      x ∈ prune s d ↔ x ∈ s ∧ ¬(x ≤ d ∧ ∀ y : ℤ, x ≤ y → y ≤ d → y ∈ s) := by
  intro s d
  induction s, d using prune.induct with
  | case1 s d h ih =>
    rw [prune, dif_pos h]
    rw [ih]
    by_cases hx : x = d
    · subst hx
      simp only [Finset.mem_erase, ne_eq, not_true_eq_false, false_and, false_iff]
      rintro ⟨-, hnot⟩
      refine hnot ⟨le_rfl, fun y hy1 hy2 => ?_⟩
      have hyd : y = x := le_antisymm hy2 hy1
      rw [hyd]
      exact h
    · constructor
      · rintro ⟨hmem, hnot⟩
        refine ⟨(Finset.mem_erase.mp hmem).2, ?_⟩
        rintro ⟨hle, hall⟩
        apply hnot
        constructor
        · omega
        · intro y hy1 hy2
          refine Finset.mem_erase.mpr ⟨by omega, hall y hy1 (by omega)⟩
      · rintro ⟨hmem, hnot⟩
        refine ⟨Finset.mem_erase.mpr ⟨hx, hmem⟩, ?_⟩
        rintro ⟨hle, hall⟩
        apply hnot
        constructor
        · omega
        · intro y hy1 hy2
          by_cases hyd : y = d
          · subst hyd; exact h
          · exact (Finset.mem_erase.mp (hall y hy1 (by omega))).2
  | case2 s d h =>
    rw [prune, dif_neg h]
    constructor
    · intro hmem
      refine ⟨hmem, ?_⟩
      rintro ⟨hle, hall⟩
      exact h (hall d hle le_rfl)
    · intro hmem
      exact hmem.1

/-- Contract of the retention pruners for reference day D: days later
than D - 2 (in particular D and D - 1) are untouched; a day D - k at
the end of a contiguous run of stored days D - 2, ..., D - k is
deleted; and once some day D - k (k at least 2) is missing, every
strictly older day is untouched. -/
def retentionContract (store result : Finset ℤ) (D : ℤ) : Prop :=
  (∀ x : ℤ, D - 2 < x → (x ∈ result ↔ x ∈ store)) ∧
  (∀ k : ℤ, 2 ≤ k → (∀ j : ℤ, 2 ≤ j → j ≤ k → D - j ∈ store) → D - k ∉ result) ∧
  (∀ k : ℤ, 2 ≤ k → D - k ∉ store → ∀ j : ℤ, k < j → (D - j ∈ result ↔ D - j ∈ store))

/-- The backward-walking delete loop started at day D - 2 satisfies the
retention contract. -/
theorem prune_retentionContract (store : Finset ℤ) (D : ℤ) :
    retentionContract store (prune store (D - 2)) D := by
  refine ⟨?_, ?_, ?_⟩
  · intro x hx
    rw [mem_prune]
    constructor
    · exact fun h => h.1
    · intro h
      refine ⟨h, ?_⟩
      rintro ⟨hle, -⟩
      omega
  · intro k hk hrun
    rw [mem_prune]
    rintro ⟨-, hnot⟩
    refine hnot ⟨by omega, fun y hy1 hy2 => ?_⟩
    have : D - (D - y) ∈ store := hrun (D - y) (by omega) (by omega)
    simpa using this
  · intro k hk hmiss j hj
    rw [mem_prune]
    constructor
    · exact fun h => h.1
    · intro h
      refine ⟨h, ?_⟩
      rintro ⟨hle, hall⟩
      exact hmiss (hall (D - k) (by omega) (by omega))

/-- C6: ClearOldSourceData and both halves of ClearOldSchemas walk
backward from two days before the reference date, deleting while a
snapshot exists and stopping at the first missing day: the reference
day and the day before it are untouched, a contiguous run of stored
days below them is deleted, and a gap halts deletion leaving every
older snapshot intact. -/
theorem retention_pruners_contract
    (store sourcesSchemas articleSchemas : Finset ℤ) (D : ℤ) :
    retentionContract store (clearOldSourceData store D) D ∧
    retentionContract sourcesSchemas (clearOldSchemas sourcesSchemas articleSchemas D).1 D ∧
    retentionContract articleSchemas (clearOldSchemas sourcesSchemas articleSchemas D).2 D := by
  have h1 := prune_retentionContract store D
  have h2 := prune_retentionContract sourcesSchemas D
  have h3 := prune_retentionContract articleSchemas D
  have he : prevDayNum D - 1 = D - 2 := by
    simp [prevDayNum]
    ring
  refine ⟨?_, ?_, ?_⟩
  · simpa [clearOldSourceData, he] using h1
  · simpa [clearOldSchemas, he] using h2
  · simpa [clearOldSchemas, he] using h3

/-- Witness for C6: with snapshots on days 0, 1, 2, 3 and reference day
3, the pruner deletes day 1 (two days before the reference). -/
theorem retention_pruners_contract_witness :
    (3 : ℤ) - 2 ∉ clearOldSourceData ({0, 1, 2, 3} : Finset ℤ) 3 :=
  (retention_pruners_contract ({0, 1, 2, 3} : Finset ℤ) ∅ ∅ 3).1.2.1 2 (by norm_num)
    (fun j h1 h2 => by
      have hj : j = 2 := le_antisymm h2 h1
      rw [hj]
      decide)

/-! ## C7: warehouse table provisioning -/

/-- The name _get_field_schema gives a built field is the declared field
name. -/
theorem getFieldSchema_name (n : String) (spec : FieldSpec) :
    (getFieldSchema n spec).name = n := by
  cases spec
  simp [getFieldSchema, SchemaField.name]

/-- The append loop of the provisioner, as a fold, equals the start list
extended with one built field per declared field whose name is missing
from the fixed name list. -/
theorem provision_foldl_eq (ns : List String) :
    ∀ (declared : List (String × FieldSpec)) (acc : List SchemaField),
      declared.foldl
        (fun acc p => if p.1 ∈ ns then acc else acc ++ [getFieldSchema p.1 p.2]) acc =
      acc ++ (declared.filter (fun p => decide (¬ p.1 ∈ ns))).map
        (fun p => getFieldSchema p.1 p.2) := by
  intro declared
  induction declared with
  | nil => intro acc; simp
  | cons p rest ih =>
    intro acc
    by_cases hp : p.1 ∈ ns
    · simp only [List.foldl_cons, hp, if_true]
      rw [ih]
      simp [List.filter_cons, hp]
    · simp only [List.foldl_cons, hp, if_false]
      rw [ih]
      simp [List.filter_cons, hp]

/-- C7: the provisioner computes the new schema by appending to the
current schema exactly those declared fields whose names are not
already present, removing or retyping nothing; running it again over
its own output with the same declared schema appends nothing, so the
second call mutates no schema. -/
theorem provisioning_additive_idempotent
    (currentSchema : List SchemaField) (declared : List (String × FieldSpec)) :
    (∃ appended,
      computeNewSchema currentSchema declared = currentSchema ++ appended ∧
      ∀ f ∈ appended, SchemaField.name f ∉ currentSchema.map SchemaField.name) ∧
    computeNewSchema (computeNewSchema currentSchema declared) declared =
      computeNewSchema currentSchema declared := by
  constructor
  · refine ⟨(declared.filter
      (fun p => decide (¬ p.1 ∈ currentSchema.map SchemaField.name))).map
        (fun p => getFieldSchema p.1 p.2), ?_, ?_⟩
    · exact provision_foldl_eq _ declared currentSchema
    · intro f hf
      obtain ⟨p, hp, rfl⟩ := List.mem_map.mp hf
      have := List.of_mem_filter hp
      rw [getFieldSchema_name]
      simpa using this
  · have hbase := provision_foldl_eq (currentSchema.map SchemaField.name) declared currentSchema
    have hnames : ∀ p ∈ declared,
        p.1 ∈ (computeNewSchema currentSchema declared).map SchemaField.name := by
      intro p hp
      by_cases hin : p.1 ∈ currentSchema.map SchemaField.name
      · rw [computeNewSchema, hbase, List.map_append]
        exact List.mem_append_left _ hin
      · rw [computeNewSchema, hbase, List.map_append]
        refine List.mem_append_right _ ?_
        rw [List.map_map]
        refine List.mem_map.mpr ⟨p, ?_, ?_⟩
        · exact List.mem_filter.mpr ⟨hp, by simpa using hin⟩
        · simp [getFieldSchema_name]
    have h2 := provision_foldl_eq
      ((computeNewSchema currentSchema declared).map SchemaField.name) declared
      (computeNewSchema currentSchema declared)
    have hfilter : declared.filter
        (fun p => decide
          (¬ p.1 ∈ (computeNewSchema currentSchema declared).map SchemaField.name)) = [] := by
      rw [List.filter_eq_nil_iff]
      intro p hp
      simpa using hnames p hp
    have h3 : computeNewSchema (computeNewSchema currentSchema declared) declared =
        (computeNewSchema currentSchema declared) ++
        (declared.filter
          (fun p => decide
            (¬ p.1 ∈ (computeNewSchema currentSchema declared).map SchemaField.name))).map
          (fun p => getFieldSchema p.1 p.2) := h2
    rw [h3, hfilter]
    simp

/-- Witness for C7: a concrete current schema and declared schema; the
second provisioning call changes nothing. -/
theorem provisioning_additive_idempotent_witness :
    computeNewSchema
      (computeNewSchema [SchemaField.mk "id" "STRING" []]
        [("id", FieldSpec.mk "STRING" []), ("source", FieldSpec.mk "RECORD"
          [("name", FieldSpec.mk "STRING" [])])])
      [("id", FieldSpec.mk "STRING" []), ("source", FieldSpec.mk "RECORD"
        [("name", FieldSpec.mk "STRING" [])])] =
    computeNewSchema [SchemaField.mk "id" "STRING" []]
      [("id", FieldSpec.mk "STRING" []), ("source", FieldSpec.mk "RECORD"
        [("name", FieldSpec.mk "STRING" [])])] :=
  (provisioning_additive_idempotent [SchemaField.mk "id" "STRING" []]
    [("id", FieldSpec.mk "STRING" []), ("source", FieldSpec.mk "RECORD"
      [("name", FieldSpec.mk "STRING" [])])]).2

/-! ## C8: article identity and upsert -/

/-- C8: the article identifier is the MD5 hex digest of the UTF-8 bytes
of the article URL alone, so two fetches of the same URL, under any
keywords and dates, carry the same identifier; and the keyed set call
overwrites any document already stored under that identifier in the
partition, leaving every other document untouched, rather than adding a
duplicate. -/
theorem article_hash_identity_upsert
    (a1 a2 : FetchedArticle) (k1 k2 d1 d2 : String)
    (hurl : a1.url = a2.url) :
    (storedArticle a1 k1 d1).id = (storedArticle a2 k2 d2).id ∧
    (∀ (store : ArticlesStore) (dk kw : String),
      writeArticle (writeArticle store dk kw a1) dk kw a1 = writeArticle store dk kw a1) ∧
    (∀ (store : ArticlesStore) (dk kw : String),
      writeArticle store dk kw a1 dk kw (articleId a1.url) = some (storedArticle a1 kw dk)) ∧
    (∀ (store : ArticlesStore) (dk kw i j l : String),
      ¬(i = dk ∧ j = kw ∧ l = articleId a1.url) →
      writeArticle store dk kw a1 i j l = store i j l) := by
  refine ⟨?_, ?_, ?_, ?_⟩
  · show articleId a1.url = articleId a2.url
    rw [hurl]
  · intro store dk kw
    funext i j l
    by_cases hc : i = dk ∧ j = kw ∧ l = articleId a1.url
    · simp [writeArticle, hc]
    · simp [writeArticle, hc]
  · intro store dk kw
    simp [writeArticle]
  · intro store dk kw i j l hne
    simp [writeArticle, hne]

/-- Witness for C8: the same URL fetched under different keywords and
dates, with different remaining payloads, receives the same id. -/
theorem article_hash_identity_upsert_witness :
    (storedArticle ⟨"https://example.com/a", []⟩ "politics" "2024-01-02").id =
    (storedArticle ⟨"https://example.com/a", [("title", Json.str "t")]⟩
      "sports" "2024-01-03").id :=
  (article_hash_identity_upsert ⟨"https://example.com/a", []⟩
    ⟨"https://example.com/a", [("title", Json.str "t")]⟩
    "politics" "sports" "2024-01-02" "2024-01-03" rfl).1

/-! ## C10: snapshot overwrite semantics -/

/-- C10 (amended): when a snapshot already exists for the reference
date, both snapshotters overwrite it with the newly fetched state
(last-write-wins); the sources snapshotter raises a warning first,
while the schema snapshotter performs no existence check and raises no
warning.  (The original claim asserted a warning for every
snapshotter.) -/
theorem snapshotters_overwrite_warning
    (store : SnapStore) (ids : List String) (executionDate : DateTime)
    (s a : SnapStore) (sourceKeys headlineKeys : List String)
    (hexists : (store (snapshotWriteKey executionDate)).isSome = true) :
    ((getNewsSources store ids executionDate).1 (snapshotWriteKey executionDate) = some ids ∧
      (getNewsSources store ids executionDate).2 ≠ []) ∧
    ((getDataSchemas s a sourceKeys headlineKeys executionDate).1
        (snapshotWriteKey executionDate) = some sourceKeys ∧
      (getDataSchemas s a sourceKeys headlineKeys executionDate).2.1
        (snapshotWriteKey executionDate) = some headlineKeys ∧
      (getDataSchemas s a sourceKeys headlineKeys executionDate).2.2 = []) := by
  refine ⟨⟨?_, ?_⟩, ?_, ?_, ?_⟩
  · simp [getNewsSources, setDoc]
  · simp [getNewsSources, hexists]
  · simp [getDataSchemas, setDoc]
  · simp [getDataSchemas, setDoc]
  · rfl

/-- Witness for C10: a sources document for the reference date already
exists, and the sources snapshotter raises its warning. -/
theorem snapshotters_overwrite_warning_witness :
    (getNewsSources schemaStoreToday ["abc-news"] execDate0).2 ≠ [] :=
  ((snapshotters_overwrite_warning schemaStoreToday ["abc-news"] execDate0
    emptySnapStore emptySnapStore ["k"] ["k2"] rfl).1).2

/-- Counterexample to C10 as frozen: a schema snapshot for the
reference date exists, yet GetDataSchemas raises no warning while
overwriting it. -/
theorem schema_snapshotter_no_warning_counterexample :
    (schemaStoreToday (snapshotWriteKey execDate0)).isSome = true ∧
    (getDataSchemas schemaStoreToday schemaStoreToday ["k"] ["k2"] execDate0).2.2 = [] :=
  ⟨rfl, rfl⟩
